import Mathlib

/-!
Shallow embedding of `src/db_utils.py` (a configuration-driven database
access helper).  Python dictionaries become association lists, JSON profile
fields become `Option`-valued structure fields (a missing key raises
`KeyError`, modelled as `DBError.missingField`), external libraries
(`psycopg2`, `pymysql`, `pandas.read_sql`, `DataFrame.to_sql`,
`sqlalchemy.create_engine`) become oracle parameters, and the observable
side effects (opening/closing connections, creating/disposing engines,
issuing SQL, printing) are recorded in an event trace.
-/

namespace DbUtils

/-- A database connection profile, i.e. the JSON object stored under one
name in the `databases` mapping of `db_config.json`.  Every field is
optional because JSON imposes no schema; dereferencing a missing key in
Python raises `KeyError`. -/
structure DBProfile where
  type? : Option String := none
  host? : Option String := none
  port? : Option Int := none
  user? : Option String := none
  password? : Option String := none
  database? : Option String := none
  description? : Option String := none
deriving DecidableEq, Repr

/-- The parsed top-level JSON document.  `config.get("databases", {})`
defaults to the empty mapping when the key is absent. -/
structure RawConfig where
  databases? : Option (List (String × DBProfile)) := none
deriving DecidableEq, Repr

/-- Error taxonomy.  Each constructor corresponds to one family of `raise`
sites in `db_utils.py` (Python types in parentheses):
`configNotFound` (FileNotFoundError), `unknownDatabase` / `unsupportedType`
/ `invalidArguments` (ValueError, distinguished by raise site),
`driverUnavailable` (ImportError), `missingField` (KeyError on a profile
key), `queryFailed` (an exception propagated from the driver / pandas). -/
inductive DBError where
  | configNotFound
  | unknownDatabase (msg : String)
  | unsupportedType (msg : String)
  | driverUnavailable (msg : String)
  | invalidArguments (msg : String)
  | missingField (field : String)
  | queryFailed (msg : String)
deriving DecidableEq, Repr

/-- A raw driver connection handle, as produced by `psycopg2.connect` or
`pymysql.connect` (the keyword arguments the code passes). -/
inductive Connection where
  | psycopg2 (host : String) (port : Int) (user password database : String)
  | pymysql (host : String) (port : Int) (user password database charset : String)
deriving DecidableEq, Repr

/-- A SQLAlchemy engine handle: `create_engine(url)` keeps only the URL. -/
structure Engine where
  url : String
deriving DecidableEq, Repr

/-- The in-memory tabular structure (pandas `DataFrame`); claims only
inspect its row count, so rows are kept abstract as lists of cells. -/
structure DataFrame where
  rows : List (List String) := []
deriving DecidableEq, Repr

/-- `len(df)`. -/
def DataFrame.len (df : DataFrame) : Nat := df.rows.length

/-- The full keyword-argument record of the single `df.to_sql(...)` call in
`save_dataframe`. -/
structure ToSqlCall where
  name : String
  con : String
  schema : Option String
  if_exists : String
  index : Bool
  method : String
  chunksize : Nat
deriving DecidableEq, Repr

/-- Observable side effects, in program order. -/
inductive Event where
  | connOpened (conn : Connection)
  | readSqlCalled (query : String)
  | connClosed
  | engineCreated (url : String)
  | toSqlCalled (call : ToSqlCall)
  | printed (msg : String)
  | engineDisposed
deriving DecidableEq, Repr

/-- Python truthiness of an `Optional[str]`: `None` and `""` are falsy.
The source guards several defaults with bare `if schema:`. -/
def optTruthy : Option String → Bool
  | none => false
  | some s => s != ""

/-- `str.lower()` as used on the declared `type` tag (character-wise
lower-casing of the underlying data; the tags compared against are plain
ASCII). -/
def strLower (s : String) : String := String.mk (s.data.map Char.toLower)

/-- `", ".join(keys)`: joins a list of strings with a separator. -/
def joinSep (sep : String) : List String → String
  | [] => ""
  | [a] => a
  | a :: b :: rest => a ++ sep ++ joinSep sep (b :: rest)

/-- `databases.keys()`. -/
def dbKeys (l : List (String × DBProfile)) : List String := l.map Prod.fst

/-- Dictionary lookup: `databases[db_name]` guarded by
`db_name not in databases`. -/
def lookupDB : List (String × DBProfile) → String → Option DBProfile
  | [], _ => none
  | (k, v) :: rest, name => if k = name then some v else lookupDB rest name

/-- `_load_config()`: returns the parsed JSON document, or raises
`FileNotFoundError` when the configuration file does not exist.  The file
system is modelled by an `Option RawConfig` (`none` = file absent). -/
def load_config (configFile : Option RawConfig) : Except DBError RawConfig :=
  match configFile with
  | none => .error .configNotFound
  | some cfg => .ok cfg

/-- The `ValueError` message of `get_connection` for an unknown name: lists
all available database names. -/
def unknownDbMsgListed (db_name available : String) : String :=
  "'" ++ db_name ++ "' 데이터베이스를 찾을 수 없습니다.\n사용 가능한 DB: " ++ available

/-- The `ValueError` message used by `get_engine` and `get_tables` for an
unknown name: names only the requested database. -/
def unknownDbMsgBare (db_name : String) : String :=
  "'" ++ db_name ++ "' 데이터베이스를 찾을 수 없습니다."

/-- `get_connection(db_name)`: loads the configuration, looks the name up,
and dispatches on the profile's declared `type` (lower-cased, defaulting to
`""` when the key is absent).  `psycopg2Available` / `pymysqlAvailable`
model whether `import psycopg2` / `import pymysql` succeeds. -/
def get_connection (configFile : Option RawConfig)
    (psycopg2Available pymysqlAvailable : Bool) (db_name : String) :
    Except DBError Connection :=
  match load_config configFile with
  | .error e => .error e
  | .ok config =>
    let databases := config.databases?.getD []
    match lookupDB databases db_name with
    | none =>
        .error (.unknownDatabase
          (unknownDbMsgListed db_name (joinSep ", " (dbKeys databases))))
    | some db_config =>
      let db_type := strLower (db_config.type?.getD "")
      if db_type = "postgresql" then
        if psycopg2Available = false then
          .error (.driverUnavailable
            "psycopg2가 설치되지 않았습니다.\n설치: pip install psycopg2-binary")
        else
          match db_config.host? with
          | none => .error (.missingField "host")
          | some host =>
          match db_config.port? with
          | none => .error (.missingField "port")
          | some port =>
          match db_config.user? with
          | none => .error (.missingField "user")
          | some user =>
          match db_config.password? with
          | none => .error (.missingField "password")
          | some password =>
          match db_config.database? with
          | none => .error (.missingField "database")
          | some database =>
            .ok (.psycopg2 host port user password database)
      else if db_type = "mariadb" then
        if pymysqlAvailable = false then
          .error (.driverUnavailable
            "pymysql이 설치되지 않았습니다.\n설치: pip install pymysql")
        else
          match db_config.host? with
          | none => .error (.missingField "host")
          | some host =>
          match db_config.port? with
          | none => .error (.missingField "port")
          | some port =>
          match db_config.user? with
          | none => .error (.missingField "user")
          | some user =>
          match db_config.password? with
          | none => .error (.missingField "password")
          | some password =>
          match db_config.database? with
          | none => .error (.missingField "database")
          | some database =>
            .ok (.pymysql host port user password database "utf8mb4")
      else
        .error (.unsupportedType
          ("지원하지 않는 DB 유형: " ++ db_type ++ "\n지원 유형: postgresql, mariadb"))

/-- `get_engine(db_name)`: same load and lookup, but no type dispatch —
the driver scheme is `"postgresql"` when the declared type is
`postgresql` and `"mysql+pymysql"` in every other case, and a pooled
engine bound to `<driver>://<user>:<password>@<host>:<port>/<database>`
is returned.  The URL f-string dereferences the profile keys in the order
user, password, host, port, database. -/
def get_engine (configFile : Option RawConfig) (db_name : String) :
    Except DBError Engine :=
  match load_config configFile with
  | .error e => .error e
  | .ok config =>
    let databases := config.databases?.getD []
    match lookupDB databases db_name with
    | none => .error (.unknownDatabase (unknownDbMsgBare db_name))
    | some db_config =>
      let db_type := strLower (db_config.type?.getD "")
      let driver := if db_type = "postgresql" then "postgresql" else "mysql+pymysql"
      match db_config.user? with
      | none => .error (.missingField "user")
      | some user =>
      match db_config.password? with
      | none => .error (.missingField "password")
      | some password =>
      match db_config.host? with
      | none => .error (.missingField "host")
      | some host =>
      match db_config.port? with
      | none => .error (.missingField "port")
      | some port =>
      match db_config.database? with
      | none => .error (.missingField "database")
      | some database =>
        .ok ⟨driver ++ "://" ++ user ++ ":" ++ password ++ "@" ++ host ++ ":"
              ++ toString port ++ "/" ++ database⟩

/-- `f"{schema}.{table_name}" if schema else table_name` (also used for the
success-message target in `save_dataframe`). -/
def fullTableName (schema : Option String) (table_name : String) : String :=
  if optTruthy schema then schema.getD "" ++ "." ++ table_name else table_name

/-- The SQL string `get_dataframe` executes after its argument validation:
the caller's `query` when `table_name` is `None`, otherwise
`SELECT * FROM {full_table_name}` with ` LIMIT {limit}` appended exactly
when `limit is not None`. -/
def builtQuery (query table_name schema : Option String)
    (limit : Option Int) : String :=
  match table_name with
  | some t =>
      let full_table_name := fullTableName schema t
      match limit with
      | some l => "SELECT * FROM " ++ full_table_name ++ " LIMIT " ++ toString l
      | none => "SELECT * FROM " ++ full_table_name
  | none => query.getD ""

/-- `get_dataframe(db_name, query, table_name, schema, limit)`: validates
that exactly one of `query` / `table_name` is supplied, builds the SQL
string, opens a connection, runs `pd.read_sql` (the `read_sql` oracle;
`.error` models the call raising) and closes the connection in a
`finally` block on both outcomes.  Returns the result together with the
trace of observable effects. -/
def get_dataframe (configFile : Option RawConfig)
    (psycopg2Available pymysqlAvailable : Bool)
    (read_sql : String → Connection → Except String DataFrame)
    (db_name : String) (query table_name schema : Option String)
    (limit : Option Int) : Except DBError DataFrame × List Event :=
  if query.isNone && table_name.isNone then
    (.error (.invalidArguments "query 또는 table_name 중 하나를 지정해야 합니다."), [])
  else if query.isSome && table_name.isSome then
    (.error (.invalidArguments "query와 table_name을 동시에 지정할 수 없습니다."), [])
  else
    let q := builtQuery query table_name schema limit
    match get_connection configFile psycopg2Available pymysqlAvailable db_name with
    | .error e => (.error e, [])
    | .ok conn =>
        match read_sql q conn with
        | .ok df => (.ok df, [.connOpened conn, .readSqlCalled q, .connClosed])
        | .error m =>
            (.error (.queryFailed m),
             [.connOpened conn, .readSqlCalled q, .connClosed])

/-- Groups the reversed digit list of a decimal rendering in threes,
inserting `,` — the helper for Python's `{n:,}` format. -/
def commaChunk : List Char → List Char
  | c1 :: c2 :: c3 :: c4 :: rest =>
      c1 :: c2 :: c3 :: ',' :: commaChunk (c4 :: rest)
  | l => l

/-- Python `f"{n:,}"` for a non-negative integer: decimal digits with a
comma every three digits from the right. -/
def formatComma (n : Nat) : String :=
  String.mk (commaChunk (toString n).data.reverse).reverse

/-- The success notice printed by `save_dataframe`. -/
def saveSuccessMsg (db_name target if_exists : String) (n : Nat) : String :=
  "✅ 성공: " ++ formatComma n ++ "행이 '" ++ db_name ++ "'의 '" ++ target
    ++ "' 테이블에 " ++ if_exists ++ " 되었습니다."

/-- The failure notice printed by `save_dataframe` (`str(e)` appended). -/
def saveFailMsg (m : String) : String := "❌ 실패: " ++ m

/-- `save_dataframe(df, db_name, table_name, schema, if_exists, index)`:
obtains an engine, calls `df.to_sql(name=.., con=engine, schema=..,
if_exists=.., index=.., method='multi', chunksize=1000)` (the `to_sql`
oracle; `.error m` models the call raising with message `m`), prints a
success or failure notice, re-raises the failure, and disposes the engine
in a `finally` block on both outcomes. -/
def save_dataframe (configFile : Option RawConfig)
    (to_sql : DataFrame → ToSqlCall → Except String Unit)
    (df : DataFrame) (db_name table_name : String) (schema : Option String)
    (if_exists : String) (index : Bool) : Except DBError Unit × List Event :=
  match get_engine configFile db_name with
  | .error e => (.error e, [])
  | .ok engine =>
      let call : ToSqlCall :=
        { name := table_name, con := engine.url, schema := schema,
          if_exists := if_exists, index := index,
          method := "multi", chunksize := 1000 }
      match to_sql df call with
      | .ok _ =>
          let target := fullTableName schema table_name
          (.ok (),
           [.engineCreated engine.url, .toSqlCalled call,
            .printed (saveSuccessMsg db_name target if_exists df.len),
            .engineDisposed])
      | .error m =>
          (.error (.queryFailed m),
           [.engineCreated engine.url, .toSqlCalled call,
            .printed (saveFailMsg m), .engineDisposed])

/-- The metadata query `get_tables` issues for a `postgresql` profile,
filtering `information_schema.tables` by `table_schema = target_schema`
(whitespace exactly as in the source's triple-quoted f-string). -/
def pgTablesQuery (target_schema : String) : String :=
  "\n            SELECT table_name, table_type\n            FROM information_schema.tables\n            WHERE table_schema = '"
    ++ target_schema
    ++ "'\n            ORDER BY table_name\n        "

/-- The metadata query `get_tables` issues for a `mariadb` profile, with
`schema_filter` spliced after `WHERE 1=1 `. -/
def mariadbTablesQuery (schema_filter : String) : String :=
  "\n            SELECT TABLE_NAME as table_name, TABLE_TYPE as table_type\n            FROM information_schema.TABLES\n            WHERE 1=1 "
    ++ schema_filter
    ++ "\n            ORDER BY TABLE_NAME\n        "

/-- `get_tables(db_name, schema)`: loads the configuration, looks the name
up (bare unknown-database message), dispatches on the declared type to
build a catalog query — for `postgresql` defaulting the schema filter to
`'public'` when `schema` is falsy, for `mariadb` to `DATABASE()` — and
delegates to `get_dataframe` with that query. -/
def get_tables (configFile : Option RawConfig)
    (psycopg2Available pymysqlAvailable : Bool)
    (read_sql : String → Connection → Except String DataFrame)
    (db_name : String) (schema : Option String) :
    Except DBError DataFrame × List Event :=
  match load_config configFile with
  | .error e => (.error e, [])
  | .ok config =>
    let databases := config.databases?.getD []
    match lookupDB databases db_name with
    | none => (.error (.unknownDatabase (unknownDbMsgBare db_name)), [])
    | some prof =>
      let db_type := strLower (prof.type?.getD "")
      if db_type = "postgresql" then
        let target_schema := if optTruthy schema then schema.getD "" else "public"
        get_dataframe configFile psycopg2Available pymysqlAvailable read_sql
          db_name (some (pgTablesQuery target_schema)) none none none
      else if db_type = "mariadb" then
        let schema_filter :=
          if optTruthy schema then "AND TABLE_SCHEMA = '" ++ schema.getD "" ++ "'"
          else "AND TABLE_SCHEMA = DATABASE()"
        get_dataframe configFile psycopg2Available pymysqlAvailable read_sql
          db_name (some (mariadbTablesQuery schema_filter)) none none none
      else
        (.error (.unsupportedType ("지원하지 않는 DB 유형: " ++ db_type)), [])

/-- `True` exactly when the outcome is an `InvalidArguments` failure. -/
def isInvalidArgumentsError {α : Type} : Except DBError α → Bool
  | .error (.invalidArguments _) => true
  | _ => false

/-- Recognises connection-opened events in a trace. -/
def Event.isConnOpen : Event → Bool
  | .connOpened _ => true
  | _ => false

/-- Recognises the connection-closed event in a trace. -/
def Event.isConnClose : Event → Bool
  | .connClosed => true
  | _ => false

/-- Recognises engine-created events in a trace. -/
def Event.isEngineCreate : Event → Bool
  | .engineCreated _ => true
  | _ => false

/-- Recognises the engine-disposed event in a trace. -/
def Event.isEngineDispose : Event → Bool
  | .engineDisposed => true
  | _ => false

/-! ### Concrete fixtures and oracle instantiations used by witnesses -/

/-- The `demo` profile of the spec's concrete scenario (§8). -/
def demoProfile : DBProfile :=
  { type? := some "postgresql", host? := some "localhost", port? := some 5432,
    user? := some "u", password? := some "p", database? := some "d" }

/-- A configuration holding only the `demo` profile. -/
def cfgDemo : RawConfig := { databases? := some [("demo", demoProfile)] }

/-- A profile whose declared type is outside the supported enum. -/
def oracleProfile : DBProfile :=
  { type? := some "oracle", host? := some "h", port? := some 1521,
    user? := some "u", password? := some "p", database? := some "d" }

/-- A configuration holding only the unsupported-type profile. -/
def cfgOracle : RawConfig := { databases? := some [("ora", oracleProfile)] }

/-- A configuration with two profiles, for name-listing checks. -/
def cfgTwo : RawConfig :=
  { databases? := some [("alpha", demoProfile), ("beta", demoProfile)] }

/-- A profile with every connection field except `type`. -/
def noTypeProfile : DBProfile :=
  { host? := some "h", port? := some 1, user? := some "u",
    password? := some "p", database? := some "d" }

/-- A configuration holding only the type-less profile. -/
def cfgNoType : RawConfig := { databases? := some [("x", noTypeProfile)] }

/-- A `pd.read_sql` oracle that always succeeds with an empty frame. -/
def read_sql_ok : String → Connection → Except String DataFrame :=
  fun _ _ => .ok {}

/-- A `pd.read_sql` oracle that always raises. -/
def read_sql_raise : String → Connection → Except String DataFrame :=
  fun _ _ => .error "relation does not exist"

/-- A `DataFrame.to_sql` oracle that always succeeds. -/
def to_sql_ok : DataFrame → ToSqlCall → Except String Unit :=
  fun _ _ => .ok ()

/-- A `DataFrame.to_sql` oracle that always raises. -/
def to_sql_raise : DataFrame → ToSqlCall → Except String Unit :=
  fun _ _ => .error "duplicate key value"

/-! ### Helper lemmas -/

/-- A name absent from the key list is not found by dictionary lookup. -/
theorem lookupDB_eq_none {l : List (String × DBProfile)} {name : String}
    (h : name ∉ dbKeys l) : lookupDB l name = none := by
  induction l with
  | nil => rfl
  | cons kv rest ih =>
      obtain ⟨k, v⟩ := kv
      simp only [dbKeys, List.map_cons, List.mem_cons, not_or] at h
      simp only [lookupDB]
      rw [if_neg fun hk => h.1 hk.symm]
      exact ih h.2

/-- An infix of `c` is an infix of `b ++ c`, on character data. -/
theorem data_infix_append_left (b : String) {a c : String}
    (h : a.data <:+: c.data) : a.data <:+: (b ++ c).data := by
  rw [String.data_append]
  exact h.trans (List.suffix_append b.data c.data).isInfix

/-- Every member of a string list occurs (as character data) inside the
separator-joined rendering of the list. -/
theorem mem_data_infix_joinSep (sep : String) {n : String} :
    ∀ {l : List String}, n ∈ l → n.data <:+: (joinSep sep l).data := by
  intro l
  induction l with
  | nil => intro h; cases h
  | cons a rest ih =>
      intro h
      cases rest with
      | nil =>
          have hn : n = a := by simpa using h
          subst hn
          simp only [joinSep]
          exact List.infix_rfl
      | cons b rest2 =>
          rcases List.mem_cons.mp h with h1 | h2
          · subst h1
            simp only [joinSep, String.data_append]
            exact ((List.prefix_append n.data sep.data).trans
              (List.prefix_append _ _)).isInfix
          · have := ih h2
            simp only [joinSep]
            exact data_infix_append_left (a ++ sep) this

/-- `get_connection` never fails with `InvalidArguments` (its raise sites
are the config check, the lookup, the driver imports, the field
dereferences and the type dispatch). -/
theorem get_connection_not_invalidArguments (configFile : Option RawConfig)
    (psy pym : Bool) (db_name : String) :
    isInvalidArgumentsError (get_connection configFile psy pym db_name) = false := by
  cases configFile with
  | none => rfl
  | some cfg =>
      simp only [get_connection, load_config]
      repeat' split <;> simp [isInvalidArgumentsError]
      rename_i heq
      repeat' split at heq
      all_goals simp_all

/-- With exactly one of `query` / `table_name` supplied, `get_dataframe`
never fails with `InvalidArguments` (whatever the configuration, drivers
and `read_sql` oracle do). -/
theorem get_dataframe_valid_not_invalidArguments
    (configFile : Option RawConfig) (psy pym : Bool)
    (read_sql : String → Connection → Except String DataFrame)
    (db_name : String) (query table_name schema : Option String)
    (limit : Option Int) (hx : query.isSome ≠ table_name.isSome) :
    isInvalidArgumentsError
      (get_dataframe configFile psy pym read_sql db_name query table_name
        schema limit).1 = false := by
  have hconn := get_connection_not_invalidArguments configFile psy pym db_name
  cases query with
  | none =>
      cases table_name with
      | none => simp at hx
      | some t =>
          simp only [get_dataframe, Option.isNone_none, Option.isSome_none,
            Option.isNone_some, Option.isSome_some, Bool.true_and,
            Bool.false_and, Bool.and_false, Bool.and_self, if_false,
            Bool.false_eq_true, if_neg, ite_false]
          rcases h : get_connection configFile psy pym db_name with e | conn
          · rw [h] at hconn
            simp only [h]
            cases e <;> simp_all [isInvalidArgumentsError]
          · rcases hr : read_sql (builtQuery none (some t) schema limit) conn with m | df <;>
              simp [h, hr, isInvalidArgumentsError]
  | some q =>
      cases table_name with
      | some t => simp at hx
      | none =>
          simp only [get_dataframe, Option.isNone_none, Option.isSome_none,
            Option.isNone_some, Option.isSome_some, Bool.true_and,
            Bool.false_and, Bool.and_false, Bool.and_self, if_false,
            Bool.false_eq_true, if_neg, ite_false]
          rcases h : get_connection configFile psy pym db_name with e | conn
          · rw [h] at hconn
            simp only [h]
            cases e <;> simp_all [isInvalidArgumentsError]
          · rcases hr : read_sql (builtQuery (some q) none schema limit) conn with m | df <;>
              simp [h, hr, isInvalidArgumentsError]

/-- C3: `get_dataframe` fails with `InvalidArguments` exactly when neither
or both of `query` / `table_name` are supplied (with the two distinct
messages of the source), and with exactly one supplied it proceeds to open
a connection and execute the built query. -/
theorem get_dataframe_argument_validation
    (configFile : Option RawConfig) (psy pym : Bool)
    (read_sql : String → Connection → Except String DataFrame)
    (db_name : String) (query table_name schema : Option String)
    (limit : Option Int) :
    (query = none → table_name = none →
      get_dataframe configFile psy pym read_sql db_name query table_name schema limit =
        (.error (.invalidArguments "query 또는 table_name 중 하나를 지정해야 합니다."), []))
    ∧ (∀ q t, query = some q → table_name = some t →
      get_dataframe configFile psy pym read_sql db_name query table_name schema limit =
        (.error (.invalidArguments "query와 table_name을 동시에 지정할 수 없습니다."), []))
    ∧ (isInvalidArgumentsError
        (get_dataframe configFile psy pym read_sql db_name query table_name schema limit).1 = true ↔
        (query = none ∧ table_name = none) ∨ (query ≠ none ∧ table_name ≠ none))
    ∧ (∀ conn, query.isSome ≠ table_name.isSome →
        get_connection configFile psy pym db_name = .ok conn →
        (get_dataframe configFile psy pym read_sql db_name query table_name schema limit).2 =
          [.connOpened conn,
           .readSqlCalled (builtQuery query table_name schema limit),
           .connClosed]) := by
  refine ⟨?_, ?_, ?_, ?_⟩
  · rintro rfl rfl; rfl
  · rintro q t rfl rfl; rfl
  · cases query with
    | none =>
        cases table_name with
        | none => simp [get_dataframe, isInvalidArgumentsError]
        | some t =>
            rw [get_dataframe_valid_not_invalidArguments configFile psy pym
              read_sql db_name none (some t) schema limit (by simp)]
            simp
    | some q =>
        cases table_name with
        | none =>
            rw [get_dataframe_valid_not_invalidArguments configFile psy pym
              read_sql db_name (some q) none schema limit (by simp)]
            simp
        | some t => simp [get_dataframe, isInvalidArgumentsError]
  · intro conn hx hconn
    cases query with
    | none =>
        cases table_name with
        | none => simp at hx
        | some t =>
            simp only [get_dataframe, Option.isNone_none, Option.isSome_none,
              Option.isNone_some, Option.isSome_some, Bool.true_and,
              Bool.false_and, Bool.and_false, if_false, Bool.false_eq_true,
              ite_false, hconn]
            rcases hr : read_sql (builtQuery none (some t) schema limit) conn with m | df <;>
              simp [hr]
    | some q =>
        cases table_name with
        | some t => simp at hx
        | none =>
            simp only [get_dataframe, Option.isNone_none, Option.isSome_none,
              Option.isNone_some, Option.isSome_some, Bool.true_and,
              Bool.false_and, Bool.and_false, if_false, Bool.false_eq_true,
              ite_false, hconn]
            rcases hr : read_sql (builtQuery (some q) none schema limit) conn with m | df <;>
              simp [hr]

/-- C3 witness: concrete instances — neither argument set fails with
`InvalidArguments`, and a table-only call against the demo configuration
opens a connection, issues the built query and closes the connection. -/
theorem get_dataframe_argument_validation_witness :
    get_dataframe (some cfgDemo) true true read_sql_ok "demo" none none none none =
      (.error (.invalidArguments "query 또는 table_name 중 하나를 지정해야 합니다."), [])
    ∧ (get_dataframe (some cfgDemo) true true read_sql_ok "demo" none (some "t") none (some 5)).2 =
      [.connOpened (.psycopg2 "localhost" 5432 "u" "p" "d"),
       .readSqlCalled (builtQuery none (some "t") none (some 5)),
       .connClosed] :=
  ⟨(get_dataframe_argument_validation (some cfgDemo) true true read_sql_ok
      "demo" none none none none).1 rfl rfl,
   (get_dataframe_argument_validation (some cfgDemo) true true read_sql_ok
      "demo" none (some "t") none (some 5)).2.2.2
      (.psycopg2 "localhost" 5432 "u" "p" "d") (by decide) rfl⟩

/-- C10: with an invalid argument combination (both or neither of `query`
and `table_name`), `get_dataframe` fails with `InvalidArguments` with an
empty effect trace, and the outcome is identical to the outcome with an
absent configuration file — the failure precedes any configuration read or
database lookup. -/
theorem invalid_arguments_before_config_read
    (configFile : Option RawConfig) (psy pym : Bool)
    (read_sql : String → Connection → Except String DataFrame)
    (db_name : String) (query table_name schema : Option String)
    (limit : Option Int)
    (hbad : (query = none ∧ table_name = none) ∨ (query ≠ none ∧ table_name ≠ none)) :
    isInvalidArgumentsError
      (get_dataframe configFile psy pym read_sql db_name query table_name schema limit).1 = true
    ∧ (get_dataframe configFile psy pym read_sql db_name query table_name schema limit).2 = []
    ∧ get_dataframe configFile psy pym read_sql db_name query table_name schema limit =
        get_dataframe none psy pym read_sql db_name query table_name schema limit := by
  rcases hbad with ⟨hq, ht⟩ | ⟨hq, ht⟩
  · subst hq; subst ht; exact ⟨rfl, rfl, rfl⟩
  · rcases Option.ne_none_iff_exists'.mp hq with ⟨q, rfl⟩
    rcases Option.ne_none_iff_exists'.mp ht with ⟨t, rfl⟩
    exact ⟨rfl, rfl, rfl⟩

/-- C10 witness: with no configuration file at all and an unknown database
name, a both-arguments call still fails with `InvalidArguments` and reads
nothing. -/
theorem invalid_arguments_before_config_read_witness :
    isInvalidArgumentsError
      (get_dataframe none true true read_sql_ok "nope" (some "SELECT 1") (some "t") none none).1 = true
    ∧ (get_dataframe none true true read_sql_ok "nope" (some "SELECT 1") (some "t") none none).2 = [] :=
  ⟨(invalid_arguments_before_config_read none true true read_sql_ok "nope"
      (some "SELECT 1") (some "t") none none
      (Or.inr ⟨by decide, by decide⟩)).1,
   (invalid_arguments_before_config_read none true true read_sql_ok "nope"
      (some "SELECT 1") (some "t") none none
      (Or.inr ⟨by decide, by decide⟩)).2.1⟩

/-- C5: scoped resource release.  On every execution — whatever the
configuration, arguments and oracle outcomes — the number of
connection-open events in `get_dataframe`'s trace equals the number of
connection-close events, and the number of engine-creation events in
`save_dataframe`'s trace equals the number of engine-disposal events; the
`finally` blocks release the resource on success and on failure alike. -/
theorem resources_released_every_path
    (configFile : Option RawConfig) (psy pym : Bool)
    (read_sql : String → Connection → Except String DataFrame)
    (to_sql : DataFrame → ToSqlCall → Except String Unit)
    (db_name : String) (query table_name schema : Option String)
    (limit : Option Int) (df : DataFrame) (table if_exists : String)
    (index : Bool) :
    ((get_dataframe configFile psy pym read_sql db_name query table_name
        schema limit).2.countP Event.isConnOpen =
      (get_dataframe configFile psy pym read_sql db_name query table_name
        schema limit).2.countP Event.isConnClose)
    ∧ ((save_dataframe configFile to_sql df db_name table schema if_exists
        index).2.countP Event.isEngineCreate =
      (save_dataframe configFile to_sql df db_name table schema if_exists
        index).2.countP Event.isEngineDispose) := by
  constructor
  · unfold get_dataframe
    repeat' split
    all_goals try rfl
    all_goals
      rename_i conn heq
    all_goals
      rcases hread : read_sql (builtQuery query table_name schema limit) conn with m | d <;>
        simp [hread, List.countP, List.countP.go, Event.isConnOpen, Event.isConnClose]
  · unfold save_dataframe
    repeat' split
    all_goals try rfl
    all_goals
      rename_i engine heq
    all_goals
      rcases hts : to_sql df ⟨table, engine.url, schema, if_exists, index, "multi", 1000⟩ with u | m <;>
        simp [hts, List.countP, List.countP.go, Event.isEngineCreate, Event.isEngineDispose]

/-- C1 counterexample: the `ora` profile declares type `oracle`, which is
neither `postgresql` nor `mariadb`, yet `get_engine` does not fail with
`UnsupportedType` — it returns a pooled engine handle bound to a
`mysql+pymysql` URL. -/
theorem get_engine_oracle_type_returns_pooled_engine :
    get_engine (some cfgOracle) "ora" =
      .ok { url := "mysql+pymysql://u:p@h:1521/d" } := by rfl

/-- C1 (amended): `get_engine` reuses `connect`'s lookup but not its type
dispatch: for any found profile whose lower-cased declared type is not
`postgresql` (unsupported types included), with all URL fields present, it
returns a pooled engine handle bound to a `mysql+pymysql://` URL instead
of failing with `UnsupportedType`. -/
theorem get_engine_no_type_dispatch
    (cfg : RawConfig) (dbs : List (String × DBProfile)) (db_name : String)
    (prof : DBProfile) (u pw h : String) (p : Int) (d : String)
    (hdbs : cfg.databases? = some dbs)
    (hfind : lookupDB dbs db_name = some prof)
    (htype : strLower (prof.type?.getD "") ≠ "postgresql")
    (hu : prof.user? = some u) (hpw : prof.password? = some pw)
    (hh : prof.host? = some h) (hp : prof.port? = some p)
    (hd : prof.database? = some d) :
    get_engine (some cfg) db_name =
      .ok { url := "mysql+pymysql://" ++ u ++ ":" ++ pw ++ "@" ++ h ++ ":"
              ++ toString p ++ "/" ++ d } := by
  simp only [get_engine, load_config, hdbs, Option.getD_some, hfind, hu, hpw,
    hh, hp, hd, if_neg htype]
  rfl

/-- C1 witness: the amended theorem applied to the concrete `oracle`-typed
profile. -/
theorem get_engine_no_type_dispatch_witness :
    get_engine (some cfgOracle) "ora" =
      .ok { url := "mysql+pymysql://" ++ "u" ++ ":" ++ "p" ++ "@" ++ "h" ++ ":"
              ++ toString (1521 : Int) ++ "/" ++ "d" } :=
  get_engine_no_type_dispatch cfgOracle [("ora", oracleProfile)] "ora"
    oracleProfile "u" "p" "h" 1521 "d" rfl rfl (by decide) rfl rfl rfl rfl rfl

/-- C2 counterexample: with profiles `alpha` and `beta` configured,
`get_engine` and `save_dataframe` fail on the unknown name `zz` with an
`UnknownDatabase` message that does not contain the configured name
`alpha` — the message does not list the configured profile names. -/
theorem get_engine_unknown_db_message_omits_names :
    get_engine (some cfgTwo) "zz" =
      .error (.unknownDatabase "'zz' 데이터베이스를 찾을 수 없습니다.")
    ∧ save_dataframe (some cfgTwo) to_sql_ok {} "zz" "t" none "append" false =
      (.error (.unknownDatabase "'zz' 데이터베이스를 찾을 수 없습니다."), [])
    ∧ ¬ ("alpha".data <:+: "'zz' 데이터베이스를 찾을 수 없습니다.".data) :=
  ⟨rfl, rfl, by decide⟩

/-- C2 (amended): every unknown database name makes all four operations
fail with `UnknownDatabase`, but only `get_connection` and `get_dataframe`
produce the message listing every configured profile name;
`get_engine` and `save_dataframe` produce the bare message naming only the
requested database. -/
theorem unknown_db_error_all_operations
    (cfg : RawConfig) (dbs : List (String × DBProfile)) (db_name : String)
    (psy pym : Bool)
    (read_sql : String → Connection → Except String DataFrame)
    (to_sql : DataFrame → ToSqlCall → Except String Unit)
    (df : DataFrame) (q table : String) (schema : Option String)
    (limit : Option Int) (if_exists : String) (index : Bool)
    (hdbs : cfg.databases? = some dbs)
    (habs : db_name ∉ dbKeys dbs) :
    get_connection (some cfg) psy pym db_name =
      .error (.unknownDatabase
        (unknownDbMsgListed db_name (joinSep ", " (dbKeys dbs))))
    ∧ (∀ n ∈ dbKeys dbs, n.data <:+:
        (unknownDbMsgListed db_name (joinSep ", " (dbKeys dbs))).data)
    ∧ get_dataframe (some cfg) psy pym read_sql db_name (some q) none schema limit =
      (.error (.unknownDatabase
        (unknownDbMsgListed db_name (joinSep ", " (dbKeys dbs)))), [])
    ∧ get_engine (some cfg) db_name =
      .error (.unknownDatabase (unknownDbMsgBare db_name))
    ∧ save_dataframe (some cfg) to_sql df db_name table schema if_exists index =
      (.error (.unknownDatabase (unknownDbMsgBare db_name)), []) := by
  have hnone := lookupDB_eq_none habs
  refine ⟨?_, ?_, ?_, ?_, ?_⟩
  · simp only [get_connection, load_config, hdbs, Option.getD_some, hnone]
  · intro n hn
    simp only [unknownDbMsgListed]
    exact data_infix_append_left _ (mem_data_infix_joinSep ", " hn)
  · simp only [get_dataframe, get_connection, load_config, hdbs,
      Option.getD_some, hnone, Option.isNone_some, Option.isNone_none,
      Option.isSome_some, Option.isSome_none, Bool.false_and, Bool.and_false,
      Bool.false_eq_true, if_false, ite_false]
  · simp only [get_engine, load_config, hdbs, Option.getD_some, hnone]
  · simp only [save_dataframe, get_engine, load_config, hdbs,
      Option.getD_some, hnone]

/-- C2 witness: the amended theorem at the two-profile configuration — the
`get_connection` message contains the configured name `alpha`, and
`get_engine` fails with the bare message. -/
theorem unknown_db_error_all_operations_witness :
    get_connection (some cfgTwo) true true "zz" =
      .error (.unknownDatabase (unknownDbMsgListed "zz"
        (joinSep ", " (dbKeys [("alpha", demoProfile), ("beta", demoProfile)]))))
    ∧ "alpha".data <:+: (unknownDbMsgListed "zz"
        (joinSep ", " (dbKeys [("alpha", demoProfile), ("beta", demoProfile)]))).data
    ∧ get_engine (some cfgTwo) "zz" =
      .error (.unknownDatabase (unknownDbMsgBare "zz")) := by
  obtain ⟨h1, h2, _, h4, _⟩ :=
    unknown_db_error_all_operations cfgTwo
      [("alpha", demoProfile), ("beta", demoProfile)] "zz" true true
      read_sql_ok to_sql_ok {} "q" "t" none none "append" false rfl (by decide)
  exact ⟨h1, h2 "alpha" (by decide), h4⟩

/-- C4 counterexample: with the empty string supplied as `schema` (a given
schema, per the claim), the executed SQL is `SELECT * FROM t LIMIT 5`
rather than the claimed `SELECT * FROM .t LIMIT 5` — the code tests the
schema's truthiness, not whether it was given. -/
theorem get_dataframe_empty_schema_no_dot :
    (get_dataframe (some cfgDemo) true true read_sql_ok "demo" none (some "t")
      (some "") (some 5)).2 =
      [.connOpened (.psycopg2 "localhost" 5432 "u" "p" "d"),
       .readSqlCalled "SELECT * FROM t LIMIT 5", .connClosed]
    ∧ "SELECT * FROM t LIMIT 5" ≠ "SELECT * FROM .t LIMIT 5" :=
  ⟨rfl, by decide⟩

/-- C4 (amended): in table mode the executed SQL is `SELECT * FROM `
followed by `schema + "." + table_name` when a non-empty schema is given
(`table_name` alone when the schema is `None` or empty), with
` LIMIT limit` appended exactly when `limit` is not `None`; in particular
`get_dataframe("demo", table_name="t", limit=5)` issues exactly
`SELECT * FROM t LIMIT 5`. -/
theorem get_dataframe_builds_select_query
    (configFile : Option RawConfig) (psy pym : Bool)
    (read_sql : String → Connection → Except String DataFrame)
    (db_name t : String) (schema : Option String) (limit : Option Int)
    (conn : Connection)
    (hconn : get_connection configFile psy pym db_name = .ok conn) :
    (limit = none →
      (get_dataframe configFile psy pym read_sql db_name none (some t) schema limit).2 =
        [.connOpened conn,
         .readSqlCalled ("SELECT * FROM " ++
           (if optTruthy schema then schema.getD "" ++ "." ++ t else t)),
         .connClosed])
    ∧ (∀ l : Int, limit = some l →
      (get_dataframe configFile psy pym read_sql db_name none (some t) schema limit).2 =
        [.connOpened conn,
         .readSqlCalled ("SELECT * FROM " ++
           (if optTruthy schema then schema.getD "" ++ "." ++ t else t)
           ++ " LIMIT " ++ toString l),
         .connClosed])
    ∧ (get_dataframe (some cfgDemo) true true read_sql_ok "demo" none (some "t")
        none (some 5)).2 =
        [.connOpened (.psycopg2 "localhost" 5432 "u" "p" "d"),
         .readSqlCalled "SELECT * FROM t LIMIT 5", .connClosed] := by
  refine ⟨?_, ?_, rfl⟩
  · rintro rfl
    simp only [get_dataframe, Option.isNone_none, Option.isNone_some,
      Option.isSome_none, Option.isSome_some, Bool.false_and, Bool.and_false,
      Bool.false_eq_true, if_false, ite_false, hconn]
    rcases hr : read_sql (builtQuery none (some t) schema none) conn with m | d <;>
      simp [hr, builtQuery, fullTableName]
  · rintro l rfl
    simp only [get_dataframe, Option.isNone_none, Option.isNone_some,
      Option.isSome_none, Option.isSome_some, Bool.false_and, Bool.and_false,
      Bool.false_eq_true, if_false, ite_false, hconn]
    rcases hr : read_sql (builtQuery none (some t) schema (some l)) conn with m | d <;>
      simp [hr, builtQuery, fullTableName]

/-- C4 witness: a table read with a non-empty schema issues the
schema-qualified query. -/
theorem get_dataframe_builds_select_query_witness :
    (get_dataframe (some cfgDemo) true true read_sql_ok "demo" none
      (some "logs") (some "public") none).2 =
      [.connOpened (.psycopg2 "localhost" 5432 "u" "p" "d"),
       .readSqlCalled ("SELECT * FROM " ++
         (if optTruthy (some "public") then (some "public").getD "" ++ "." ++ "logs"
          else "logs")),
       .connClosed] :=
  (get_dataframe_builds_select_query (some cfgDemo) true true read_sql_ok
    "demo" "logs" (some "public") none
    (.psycopg2 "localhost" 5432 "u" "p" "d") rfl).1 rfl

/-- C6: `save_dataframe` performs its single bulk insert through
`to_sql` with `method='multi'` and `chunksize=1000` targeting
`name=table_name, schema=schema`; on success it prints the row count and
destination, and on failure it prints the error message and re-raises the
same exception; the engine is disposed in both cases. -/
theorem save_dataframe_bulk_insert_contract
    (configFile : Option RawConfig)
    (to_sql : DataFrame → ToSqlCall → Except String Unit)
    (df : DataFrame) (db_name table_name : String) (schema : Option String)
    (if_exists : String) (index : Bool) (engine : Engine)
    (heng : get_engine configFile db_name = .ok engine) :
    (to_sql df ⟨table_name, engine.url, schema, if_exists, index, "multi", 1000⟩ = .ok () →
      save_dataframe configFile to_sql df db_name table_name schema if_exists index =
        (.ok (),
         [.engineCreated engine.url,
          .toSqlCalled ⟨table_name, engine.url, schema, if_exists, index, "multi", 1000⟩,
          .printed (saveSuccessMsg db_name (fullTableName schema table_name)
            if_exists df.len),
          .engineDisposed]))
    ∧ (∀ m, to_sql df ⟨table_name, engine.url, schema, if_exists, index, "multi", 1000⟩ = .error m →
      save_dataframe configFile to_sql df db_name table_name schema if_exists index =
        (.error (.queryFailed m),
         [.engineCreated engine.url,
          .toSqlCalled ⟨table_name, engine.url, schema, if_exists, index, "multi", 1000⟩,
          .printed (saveFailMsg m), .engineDisposed])) := by
  constructor
  · intro hok
    simp only [save_dataframe, heng, hok]
  · intro m hm
    simp only [save_dataframe, heng, hm]

/-- C6 witness: a two-row frame saved against the demo configuration
reports `2` rows into table `t` and disposes the engine. -/
theorem save_dataframe_bulk_insert_contract_witness :
    save_dataframe (some cfgDemo) to_sql_ok { rows := [["1"], ["2"]] }
      "demo" "t" none "append" false =
      (.ok (),
       [.engineCreated "postgresql://u:p@localhost:5432/d",
        .toSqlCalled ⟨"t", "postgresql://u:p@localhost:5432/d", none, "append",
          false, "multi", 1000⟩,
        .printed (saveSuccessMsg "demo" (fullTableName none "t") "append"
          (DataFrame.len { rows := [["1"], ["2"]] })),
        .engineDisposed]) :=
  (save_dataframe_bulk_insert_contract (some cfgDemo) to_sql_ok
    { rows := [["1"], ["2"]] } "demo" "t" none "append" false
    ⟨"postgresql://u:p@localhost:5432/d"⟩ rfl).1 rfl

/-- C7 counterexample: for the PostgreSQL profile `demo` with an empty
string given as `schema`, the catalog query filters `table_schema` by
`'public'`, not by the given (empty) schema — the default is applied for
any falsy schema, not only for `None`. -/
theorem get_tables_empty_schema_defaults_public :
    (get_tables (some cfgDemo) true true read_sql_ok "demo" (some "")).2 =
      [.connOpened (.psycopg2 "localhost" 5432 "u" "p" "d"),
       .readSqlCalled (pgTablesQuery "public"), .connClosed]
    ∧ pgTablesQuery "public" ≠ pgTablesQuery "" :=
  ⟨rfl, by decide⟩

/-- C7 (amended): `get_tables` dispatches on the declared type: for
`postgresql` it delegates to `get_dataframe` with the
`information_schema.tables` query filtered by `table_schema` equal to the
given schema when non-empty (defaulting to `'public'` when the schema is
`None` or empty); for `mariadb` with the `information_schema.TABLES` query
filtered by `TABLE_SCHEMA` equal to the given schema when non-empty
(defaulting to the connection's `DATABASE()` when `None` or empty); any
other type fails with `UnsupportedType`. -/
theorem get_tables_type_dispatch
    (cfg : RawConfig) (dbs : List (String × DBProfile)) (db_name : String)
    (prof : DBProfile) (psy pym : Bool)
    (read_sql : String → Connection → Except String DataFrame)
    (schema : Option String)
    (hdbs : cfg.databases? = some dbs)
    (hfind : lookupDB dbs db_name = some prof) :
    (strLower (prof.type?.getD "") = "postgresql" →
      get_tables (some cfg) psy pym read_sql db_name schema =
        get_dataframe (some cfg) psy pym read_sql db_name
          (some (pgTablesQuery
            (if optTruthy schema then schema.getD "" else "public")))
          none none none)
    ∧ (strLower (prof.type?.getD "") = "mariadb" →
      get_tables (some cfg) psy pym read_sql db_name schema =
        get_dataframe (some cfg) psy pym read_sql db_name
          (some (mariadbTablesQuery
            (if optTruthy schema then "AND TABLE_SCHEMA = '" ++ schema.getD "" ++ "'"
             else "AND TABLE_SCHEMA = DATABASE()")))
          none none none)
    ∧ (strLower (prof.type?.getD "") ≠ "postgresql" →
       strLower (prof.type?.getD "") ≠ "mariadb" →
      get_tables (some cfg) psy pym read_sql db_name schema =
        (.error (.unsupportedType
          ("지원하지 않는 DB 유형: " ++ strLower (prof.type?.getD ""))), [])) := by
  refine ⟨?_, ?_, ?_⟩
  · intro ht
    simp only [get_tables, load_config, hdbs, Option.getD_some, hfind, if_pos ht]
  · intro ht
    simp only [get_tables, load_config, hdbs, Option.getD_some, hfind]
    rw [if_neg (by rw [ht]; decide), if_pos ht]
  · intro h1 h2
    simp only [get_tables, load_config, hdbs, Option.getD_some, hfind,
      if_neg h1, if_neg h2]

/-- C7 witness: for the PostgreSQL `demo` profile with no schema given,
`get_tables` delegates to `get_dataframe` with the `'public'`-filtered
catalog query. -/
theorem get_tables_type_dispatch_witness :
    get_tables (some cfgDemo) true true read_sql_ok "demo" none =
      get_dataframe (some cfgDemo) true true read_sql_ok "demo"
        (some (pgTablesQuery
          (if optTruthy none then (none : Option String).getD "" else "public")))
        none none none :=
  (get_tables_type_dispatch cfgDemo [("demo", demoProfile)] "demo" demoProfile
    true true read_sql_ok none rfl rfl).1 (by decide)

/-- C8: for a found profile, `get_connection` dispatches exactly once on
the lower-cased declared type: `postgresql` opens a psycopg2 connection
(or fails with the actionable `DriverUnavailable` install hint when the
library is missing), `mariadb` opens a pymysql connection with charset
`utf8mb4` (or its own `DriverUnavailable` hint), and any other type fails
with `UnsupportedType`. -/
theorem get_connection_type_dispatch
    (cfg : RawConfig) (dbs : List (String × DBProfile)) (db_name : String)
    (prof : DBProfile) (psy pym : Bool)
    (hdbs : cfg.databases? = some dbs)
    (hfind : lookupDB dbs db_name = some prof) :
    (strLower (prof.type?.getD "") = "postgresql" →
      (psy = false →
        get_connection (some cfg) psy pym db_name =
          .error (.driverUnavailable
            "psycopg2가 설치되지 않았습니다.\n설치: pip install psycopg2-binary"))
      ∧ (∀ h : String, ∀ p : Int, ∀ u pw d : String, psy = true →
          prof.host? = some h → prof.port? = some p → prof.user? = some u →
          prof.password? = some pw → prof.database? = some d →
          get_connection (some cfg) psy pym db_name =
            .ok (.psycopg2 h p u pw d)))
    ∧ (strLower (prof.type?.getD "") = "mariadb" →
      (pym = false →
        get_connection (some cfg) psy pym db_name =
          .error (.driverUnavailable
            "pymysql이 설치되지 않았습니다.\n설치: pip install pymysql"))
      ∧ (∀ h : String, ∀ p : Int, ∀ u pw d : String, pym = true →
          prof.host? = some h → prof.port? = some p → prof.user? = some u →
          prof.password? = some pw → prof.database? = some d →
          get_connection (some cfg) psy pym db_name =
            .ok (.pymysql h p u pw d "utf8mb4")))
    ∧ (strLower (prof.type?.getD "") ≠ "postgresql" →
       strLower (prof.type?.getD "") ≠ "mariadb" →
      get_connection (some cfg) psy pym db_name =
        .error (.unsupportedType
          ("지원하지 않는 DB 유형: " ++ strLower (prof.type?.getD "")
            ++ "\n지원 유형: postgresql, mariadb"))) := by
  refine ⟨fun ht => ⟨?_, ?_⟩, fun ht => ⟨?_, ?_⟩, fun h1 h2 => ?_⟩
  · rintro rfl
    simp only [get_connection, load_config, hdbs, Option.getD_some, hfind,
      if_pos ht, ite_true]
  · rintro h p u pw d rfl hh hp hu hpw hd
    simp only [get_connection, load_config, hdbs, Option.getD_some, hfind,
      if_pos ht, hh, hp, hu, hpw, hd]
    rfl
  · rintro rfl
    simp only [get_connection, load_config, hdbs, Option.getD_some, hfind]
    rw [if_neg (by rw [ht]; decide), if_pos ht]
    rfl
  · rintro h p u pw d rfl hh hp hu hpw hd
    simp only [get_connection, load_config, hdbs, Option.getD_some, hfind,
      hh, hp, hu, hpw, hd]
    rw [if_neg (by rw [ht]; decide), if_pos ht]
    rfl
  · simp only [get_connection, load_config, hdbs, Option.getD_some, hfind,
      if_neg h1, if_neg h2]

/-- C8 witness: the demo PostgreSQL profile connects through psycopg2 when
the driver is importable, and fails with the psycopg2 install hint when it
is not. -/
theorem get_connection_type_dispatch_witness :
    get_connection (some cfgDemo) true true "demo" =
      .ok (.psycopg2 "localhost" 5432 "u" "p" "d")
    ∧ get_connection (some cfgDemo) false true "demo" =
      .error (.driverUnavailable
        "psycopg2가 설치되지 않았습니다.\n설치: pip install psycopg2-binary") := by
  obtain ⟨hpgT, _, _⟩ := get_connection_type_dispatch cfgDemo
    [("demo", demoProfile)] "demo" demoProfile true true rfl rfl
  obtain ⟨hpgF, _, _⟩ := get_connection_type_dispatch cfgDemo
    [("demo", demoProfile)] "demo" demoProfile false true rfl rfl
  exact ⟨(hpgT (by decide)).2 "localhost" 5432 "u" "p" "d" rfl rfl rfl rfl rfl rfl,
         (hpgF (by decide)).1 rfl⟩

/-- C9 counterexample: a profile with every connection field but no
`type` key is not reported as `MissingField "type"` when first used —
`get_connection` defaults the type to the empty string and fails with
`UnsupportedType` instead. -/
theorem missing_type_reports_unsupported :
    get_connection (some cfgNoType) true true "x" =
      .error (.unsupportedType "지원하지 않는 DB 유형: \n지원 유형: postgresql, mariadb")
    ∧ get_connection (some cfgNoType) true true "x" ≠
      .error (.missingField "type") := by
  refine ⟨rfl, fun hc => ?_⟩
  have h1 : get_connection (some cfgNoType) true true "x" =
      .error (.unsupportedType "지원하지 않는 DB 유형: \n지원 유형: postgresql, mariadb") := rfl
  rw [h1] at hc
  exact absurd (Except.error.inj hc) (by decide)

/-- C9 (amended): the loader performs no profile validation — it returns
any parsed document unchanged — and a missing `host`, `port`, `user`,
`password` or `database` key only surfaces when `get_connection`
dereferences it, failing with `MissingField` naming that field (in
dereference order); a missing `type`, however, is not reported as
`MissingField`: it defaults to the empty string and fails with
`UnsupportedType`. -/
theorem field_validation_lazy
    (cfg : RawConfig) (dbs : List (String × DBProfile)) (db_name : String)
    (prof : DBProfile) (psy pym : Bool)
    (hdbs : cfg.databases? = some dbs)
    (hfind : lookupDB dbs db_name = some prof) :
    (∀ c : RawConfig, load_config (some c) = .ok c)
    ∧ (prof.type? = none →
        get_connection (some cfg) psy pym db_name =
          .error (.unsupportedType
            "지원하지 않는 DB 유형: \n지원 유형: postgresql, mariadb"))
    ∧ (strLower (prof.type?.getD "") = "postgresql" → psy = true →
        (prof.host? = none →
          get_connection (some cfg) psy pym db_name = .error (.missingField "host"))
        ∧ (∀ h, prof.host? = some h → prof.port? = none →
          get_connection (some cfg) psy pym db_name = .error (.missingField "port"))
        ∧ (∀ h p, prof.host? = some h → prof.port? = some p → prof.user? = none →
          get_connection (some cfg) psy pym db_name = .error (.missingField "user"))
        ∧ (∀ h p u, prof.host? = some h → prof.port? = some p →
            prof.user? = some u → prof.password? = none →
          get_connection (some cfg) psy pym db_name = .error (.missingField "password"))
        ∧ (∀ h p u pw, prof.host? = some h → prof.port? = some p →
            prof.user? = some u → prof.password? = some pw → prof.database? = none →
          get_connection (some cfg) psy pym db_name = .error (.missingField "database")))
    ∧ (strLower (prof.type?.getD "") = "mariadb" → pym = true →
        (prof.host? = none →
          get_connection (some cfg) psy pym db_name = .error (.missingField "host"))
        ∧ (∀ h, prof.host? = some h → prof.port? = none →
          get_connection (some cfg) psy pym db_name = .error (.missingField "port"))
        ∧ (∀ h p, prof.host? = some h → prof.port? = some p → prof.user? = none →
          get_connection (some cfg) psy pym db_name = .error (.missingField "user"))
        ∧ (∀ h p u, prof.host? = some h → prof.port? = some p →
            prof.user? = some u → prof.password? = none →
          get_connection (some cfg) psy pym db_name = .error (.missingField "password"))
        ∧ (∀ h p u pw, prof.host? = some h → prof.port? = some p →
            prof.user? = some u → prof.password? = some pw → prof.database? = none →
          get_connection (some cfg) psy pym db_name = .error (.missingField "database"))) := by
  refine ⟨fun c => rfl, ?_, ?_, ?_⟩
  · intro htype
    simp only [get_connection, load_config, hdbs, Option.getD_some, hfind, htype]
    rfl
  · rintro ht rfl
    refine ⟨?_, ?_, ?_, ?_, ?_⟩
    · intro hh
      simp only [get_connection, load_config, hdbs, Option.getD_some, hfind,
        if_pos ht, hh]
      rfl
    · rintro h hh hp
      simp only [get_connection, load_config, hdbs, Option.getD_some, hfind,
        if_pos ht, hh, hp]
      rfl
    · rintro h p hh hp hu
      simp only [get_connection, load_config, hdbs, Option.getD_some, hfind,
        if_pos ht, hh, hp, hu]
      rfl
    · rintro h p u hh hp hu hpw
      simp only [get_connection, load_config, hdbs, Option.getD_some, hfind,
        if_pos ht, hh, hp, hu, hpw]
      rfl
    · rintro h p u pw hh hp hu hpw hd
      simp only [get_connection, load_config, hdbs, Option.getD_some, hfind,
        if_pos ht, hh, hp, hu, hpw, hd]
      rfl
  · rintro ht rfl
    refine ⟨?_, ?_, ?_, ?_, ?_⟩
    · intro hh
      simp only [get_connection, load_config, hdbs, Option.getD_some, hfind, hh]
      rw [if_neg (by rw [ht]; decide), if_pos ht]
      rfl
    · rintro h hh hp
      simp only [get_connection, load_config, hdbs, Option.getD_some, hfind, hh, hp]
      rw [if_neg (by rw [ht]; decide), if_pos ht]
      rfl
    · rintro h p hh hp hu
      simp only [get_connection, load_config, hdbs, Option.getD_some, hfind,
        hh, hp, hu]
      rw [if_neg (by rw [ht]; decide), if_pos ht]
      rfl
    · rintro h p u hh hp hu hpw
      simp only [get_connection, load_config, hdbs, Option.getD_some, hfind,
        hh, hp, hu, hpw]
      rw [if_neg (by rw [ht]; decide), if_pos ht]
      rfl
    · rintro h p u pw hh hp hu hpw hd
      simp only [get_connection, load_config, hdbs, Option.getD_some, hfind,
        hh, hp, hu, hpw, hd]
      rw [if_neg (by rw [ht]; decide), if_pos ht]
      rfl

/-- C9 witness: a PostgreSQL profile without `host` fails with
`MissingField "host"` when first used, while its configuration loads
without complaint. -/
theorem field_validation_lazy_witness :
    load_config (some { databases? := some [("y", { type? := some "postgresql" })] }) =
      .ok { databases? := some [("y", { type? := some "postgresql" })] }
    ∧ get_connection
        (some { databases? := some [("y", { type? := some "postgresql" })] })
        true true "y" = .error (.missingField "host") := by
  obtain ⟨hload, _, hpg, _⟩ := field_validation_lazy
    { databases? := some [("y", { type? := some "postgresql" })] }
    [("y", { type? := some "postgresql" })] "y"
    { type? := some "postgresql" } true true rfl rfl
  exact ⟨hload _, (hpg (by decide) rfl).1 rfl⟩

end DbUtils
